import Mathlib

/-!
Verification of the "My Land" crop-yield dashboard (src/app.py, src/model.py,
src/utils/model.py, src/states_data.py) against its specification.

Numbers are modelled as rationals (`ℚ`); Python dictionaries keyed by strings
are modelled as association lists with a `dict_get` operation mirroring
`dict.get`; Python runtime values that flow between `preprocess_inputs`,
`predict_yield` and `display_results` are modelled by the inductive `PyVal`.
-/

/-- `d.get k` on a Python dict modelled as an association list:
the value at the first matching key, or `none`. -/
def dict_get {α : Type} (d : List (String × α)) (k : String) : Option α :=
  (d.find? (fun p => p.1 == k)).map Prod.snd

/-- `d.get k default` on a Python dict: `dict.get` with a default value. -/
def dict_getD {α : Type} (d : List (String × α)) (k : String) (default : α) : α :=
  (dict_get d k).getD default

/-- `k in d` membership test on a Python dict. -/
def dict_mem {α : Type} (d : List (String × α)) (k : String) : Bool :=
  (dict_get d k).isSome

/-- The `historical_data` table of `get_historical_prediction`
(src/app.py lines 60–88): historical average yields (kg/ha) by state and crop. -/
def historical_data : List (String × List (String × ℚ)) :=
  [ ("Punjab", [("Rice", 4200), ("Wheat", 4800), ("Maize", 3800), ("Cotton", 1800)]),
    ("Haryana", [("Rice", 3900), ("Wheat", 4600), ("Maize", 3600), ("Cotton", 1700)]),
    ("Uttar Pradesh", [("Rice", 2400), ("Wheat", 3200), ("Sugarcane", 68000), ("Potato", 22000)]),
    ("Maharashtra", [("Cotton", 1200), ("Sugarcane", 78000), ("Soybean", 1800), ("Rice", 2800)]),
    ("Karnataka", [("Rice", 3200), ("Cotton", 1400), ("Sugarcane", 82000), ("Maize", 4500)]),
    ("Tamil Nadu", [("Rice", 3600), ("Cotton", 1600), ("Sugarcane", 98000), ("Groundnut", 1900)]),
    ("Gujarat", [("Cotton", 1500), ("Groundnut", 2100), ("Wheat", 3400), ("Rice", 2600)]),
    ("West Bengal", [("Rice", 3400), ("Wheat", 3000), ("Potato", 24000), ("Jute", 2200)]),
    ("Rajasthan", [("Wheat", 3800), ("Mustard", 1200), ("Barley", 2800), ("Cotton", 900)]) ]

/-- The `default_yields` table of `get_historical_prediction`
(src/app.py lines 91–94): crop-level default yields used when the
state/crop combination is not found. -/
def default_yields : List (String × ℚ) :=
  [ ("Rice", 3000), ("Wheat", 3200), ("Maize", 4000), ("Cotton", 1200),
    ("Sugarcane", 70000), ("Soybean", 1800), ("Groundnut", 1700), ("Pulses", 1200) ]

/-- The record returned by `get_historical_prediction` (src/app.py lines 99–103). -/
structure HistoricalReference where
  historical_yield : ℚ
  data_source : String
  reliability : ℚ
  deriving DecidableEq, Repr

/-- `get_historical_prediction` (src/app.py lines 56–103):
`state_data = historical_data.get(state, \x7b\x7d)`;
`historical_yield = state_data.get(crop_type, default_yields.get(crop_type, 2500))`;
`reliability = 85.0 if state in historical_data else 70.0`;
`data_source` is the f-string `Average yield data for \x7bcrop_type\x7d in \x7bstate\x7d`. -/
def get_historical_prediction (state crop_type : String) : HistoricalReference :=
  let state_data := dict_getD historical_data state []
  let historical_yield :=
    dict_getD state_data crop_type (dict_getD default_yields crop_type 2500)
  { historical_yield := historical_yield
    data_source := "Average yield data for " ++ crop_type ++ " in " ++ state
    reliability := if dict_mem historical_data state then 85 else 70 }

/-- The exact state+crop lookup made by `get_historical_prediction`:
the entry of `historical_data` for `state` (empty dict when absent),
then its entry for `crop_type`. -/
def exact_historical_entry (state crop_type : String) : Option ℚ :=
  dict_get (dict_getD historical_data state []) crop_type

/-- A Python runtime value as it flows through `preprocess_inputs`,
`predict_yield` and `display_results`: a number, a string, a list, or a
string-keyed dict. -/
inductive PyVal where
  | num (q : ℚ)
  | str (s : String)
  | list (xs : List PyVal)
  | dict (entries : List (String × PyVal))
  deriving Repr

/-- Python subscript `v[k]` with a string key: defined only on dicts
(on a number or string it raises `TypeError`, modelled as `none`). -/
def getItem : PyVal → String → Option PyVal
  | .dict entries, k => dict_get entries k
  | _, _ => none

/-- `preprocess_inputs` (src/app.py lines 45–54): returns the raw inputs as a
string-keyed dict; `state` and `crop_type` stay strings, nothing is encoded
into a numeric vector. -/
def preprocess_inputs (state : String) (rainfall temperature soil_ph : ℚ)
    (crop_type : String) : PyVal :=
  .dict [ ("state", .str state), ("rainfall", .num rainfall),
          ("temperature", .num temperature), ("soil_ph", .num soil_ph),
          ("crop_type", .str crop_type) ]

mutual

/-- Conversion of a Python value into the flat numeric row produced by
`np.array(input_data).reshape(1, -1)` and required by the artifact's
`predict(feature_vector: ordered sequence of numbers)` contract: numbers and
(possibly nested) lists of numbers flatten into one numeric row; a string or a
string-keyed dict admits no numeric conversion (numpy yields an object array
and the numeric check in `model.predict` raises), modelled as `none`. -/
def to_numeric_row : PyVal → Option (List ℚ)
  | .num q => some [q]
  | .str _ => none
  | .dict _ => none
  | .list xs => to_numeric_rows xs

/-- Flattening of a list of Python values into one numeric row, failing as
soon as one element has no numeric conversion. -/
def to_numeric_rows : List PyVal → Option (List ℚ)
  | [] => some []
  | v :: vs =>
    match to_numeric_row v, to_numeric_rows vs with
    | some r, some rs => some (r ++ rs)
    | _, _ => none

end

namespace UtilsModel

/-- `load_model` (src/utils/model.py lines 5–9): opens `trained_model.pkl`
and unpickles it. The file-system state is the optional content of that path;
when the file is absent, `open` raises `FileNotFoundError`, which `load_model`
does not catch. The loaded artifact is its batch `predict` function. -/
def load_model (file : Option (List (List ℚ) → List ℚ)) :
    Except String (List (List ℚ) → List ℚ) :=
  match file with
  | none => Except.error "FileNotFoundError: trained_model.pkl"
  | some m => Except.ok m

/-- `predict_yield` (src/utils/model.py lines 11–14):
`model.predict(np.array(input_data).reshape(1, -1))[0]`. The reshape/numeric
conversion is `to_numeric_row`; when it fails (e.g. `input_data` is a dict)
the call raises, modelled as `none`; otherwise the single row is passed to
`predict` and element `[0]` of the result is taken. -/
def predict_yield (predict : List (List ℚ) → List ℚ) (input_data : PyVal) :
    Option ℚ :=
  match to_numeric_row input_data with
  | none => none
  | some row => (predict [row]).head?

end UtilsModel

namespace ModelPy

/-- `predict_yield` (src/model.py lines 6–7): `model.predict([features])[0]`
for a flat numeric feature vector `features`. -/
def predict_yield (predict : List (List ℚ) → List ℚ) (features : List ℚ) :
    Option ℚ :=
  (predict [features]).head?

end ModelPy

/-- The estimate pipeline assembled by `main` and `display_results`
(src/app.py lines 174–208): preprocess the raw inputs, call
`predict_yield` on the resulting dict, then read `prediction_result['yield']`
and `prediction_result['confidence']` as `display_results` does; the result is
the (yield, confidence) pair of the PredictionResult when every step succeeds. -/
def estimate_pipeline (predict : List (List ℚ) → List ℚ) (state : String)
    (rainfall temperature soil_ph : ℚ) (crop_type : String) : Option (ℚ × ℚ) :=
  match UtilsModel.predict_yield predict
      (preprocess_inputs state rainfall temperature soil_ph crop_type) with
  | none => none
  | some q =>
    match getItem (.num q) "yield", getItem (.num q) "confidence" with
    | some (.num y), some (.num c) => some (y, c)
    | _, _ => none

/-- The full request pipeline of `main` (src/app.py lines 112–189) as a
function of the file-system state: `initialize_model` loads the artifact
(a raised `FileNotFoundError` propagates uncaught), then the prediction and
the historical lookup run. -/
def run_prediction (file : Option (List (List ℚ) → List ℚ)) (state : String)
    (rainfall temperature soil_ph : ℚ) (crop_type : String) :
    Except String (Option (ℚ × ℚ) × HistoricalReference) := do
  let model ← UtilsModel.load_model file
  pure (estimate_pipeline model state rainfall temperature soil_ph crop_type,
        get_historical_prediction state crop_type)

/-- `yield_ratio` (src/app.py line 221):
`user_yield / historical_yield if historical_yield > 0 else 1`. -/
def yield_ratio (user_yield historical_yield : ℚ) : ℚ :=
  if historical_yield > 0 then user_yield / historical_yield else 1

/-- `yield_diff_percent` (src/app.py line 308):
`((user_yield / historical_yield) - 1) * 100 if historical_yield > 0 else 0`. -/
def yield_diff_percent (user_yield historical_yield : ℚ) : ℚ :=
  if historical_yield > 0 then (user_yield / historical_yield - 1) * 100 else 0

/-- The `ph_range` column of `CROP_SOIL_PREFERENCES`
(src/states_data.py lines 98–129): optimal soil pH range per crop. -/
def CROP_SOIL_PH_RANGE : List (String × (ℚ × ℚ)) :=
  [ ("Rice", (5.5, 6.5)), ("Wheat", (6, 7.5)), ("Cotton", (5.8, 8)),
    ("Maize", (6, 7.5)), ("Sugarcane", (6.5, 7.5)), ("Soybean", (6, 7)) ]

/-- The `rainfall_range` column of `CROP_CLIMATE_REQUIREMENTS`
(src/states_data.py lines 132–169): required rainfall range per crop (mm). -/
def CROP_RAINFALL_RANGE : List (String × (ℚ × ℚ)) :=
  [ ("Rice", (1000, 2000)), ("Wheat", (450, 650)), ("Cotton", (500, 1000)),
    ("Maize", (500, 800)), ("Sugarcane", (1500, 2500)), ("Soybean", (450, 700)) ]

/-- The `crop_market_rates` table of `display_results`
(src/app.py lines 211–214), rupees per kg; the default rate is 25. -/
def crop_market_rates : List (String × ℚ) :=
  [ ("Rice", 20), ("Wheat", 22), ("Maize", 18), ("Cotton", 55), ("Sugarcane", 3.5),
    ("Soybean", 45), ("Groundnut", 52), ("Pulses", 65), ("Mustard", 50), ("Sunflower", 55) ]

/-- A validated PredictionInput (spec section 3): the five fields
`preprocess_inputs` receives. -/
structure PredictionInput where
  state : String
  rainfall : ℚ
  temperature : ℚ
  soil_ph : ℚ
  crop_type : String
  deriving DecidableEq, Repr

/-- The PredictionResult fields the advisory engine reads
(spec sections 3 and 4.2). -/
structure PredictionResult where
  yield_kg_per_ha : ℚ
  confidence_pct : ℚ
  deriving DecidableEq, Repr

/-- Severity tag of an advisory record (spec section 3); `display_results`
(src/app.py lines 484–502) renders these as success / warning / info. -/
inductive Severity where
  | positive
  | caution
  | informational
  deriving DecidableEq, Repr

/-- An AdvisoryRecord (spec section 3): a severity tag and a message. -/
structure AdvisoryRecord where
  severity : Severity
  message : String
  deriving DecidableEq, Repr

/-- Modelled from the spec: `get_crop_recommendations` is imported by
`app.py` (line 7) from `utils/recommendations.py`, a module absent from the
repository. Per spec section 4.2 it is a pure rule table evaluated
top-to-bottom with first-match-per-topic semantics: one soil-pH message
(caution when the pH is outside the crop's optimal range from
`CROP_SOIL_PREFERENCES`, positive otherwise), one rainfall message (caution
when rainfall is below the crop's requirement from
`CROP_CLIMATE_REQUIREMENTS`), and one yield message (positive when the
predicted yield is above the historical baseline). -/
def get_crop_recommendations (input : PredictionInput)
    (result : PredictionResult) : List AdvisoryRecord :=
  let phRec :=
    match dict_get CROP_SOIL_PH_RANGE input.crop_type with
    | some (lo, hi) =>
      if input.soil_ph < lo ∨ hi < input.soil_ph then
        [⟨.caution, "Soil pH is outside the optimal range for " ++ input.crop_type⟩]
      else
        [⟨.positive, "Soil pH suits " ++ input.crop_type⟩]
    | none => []
  let rainRec :=
    match dict_get CROP_RAINFALL_RANGE input.crop_type with
    | some (lo, _) =>
      if input.rainfall < lo then
        [⟨.caution, "Rainfall is below the requirement for " ++ input.crop_type⟩]
      else []
    | none => []
  let yieldRec :=
    if (get_historical_prediction input.state input.crop_type).historical_yield
        < result.yield_kg_per_ha then
      [⟨.positive, "Predicted yield is above the historical baseline"⟩]
    else
      [⟨.informational, "Predicted yield is at or below the historical baseline"⟩]
  phRec ++ rainRec ++ yieldRec

/-- Modelled from the spec: `get_optimization_suggestions` is imported by
`app.py` (line 7) from the absent `utils/recommendations.py`. Per spec
section 4.2 it is a pure rule table: one market-rate message (driven by
`crop_market_rates` of `display_results`), one irrigation message when
rainfall is below the crop's requirement, and one revenue note. -/
def get_optimization_suggestions (input : PredictionInput)
    (result : PredictionResult) : List AdvisoryRecord :=
  let rate := dict_getD crop_market_rates input.crop_type 25
  let rateRec :=
    if 50 ≤ rate then
      [⟨Severity.positive, "High market rate for " ++ input.crop_type
          ++ "; prioritise produce quality"⟩]
    else
      [⟨Severity.informational, "Track market prices for " ++ input.crop_type
          ++ " to pick the best selling time"⟩]
  let irrigationRec :=
    match dict_get CROP_RAINFALL_RANGE input.crop_type with
    | some (lo, _) =>
      if input.rainfall < lo then
        [⟨Severity.caution, "Plan irrigation: rainfall is below the crop requirement"⟩]
      else []
    | none => []
  let revenueRec :=
    if 100000 ≤ result.yield_kg_per_ha * rate then
      [⟨Severity.positive, "Expected revenue per hectare is high at the current market rate"⟩]
    else
      [⟨Severity.informational, "Expected revenue per hectare scales the predicted yield "
          ++ "by the market rate"⟩]
  rateRec ++ irrigationRec ++ revenueRec

/-- Containment of `needle` as a contiguous substring of `haystack`. -/
def contains_substring (needle haystack : String) : Prop :=
  ∃ l r : List Char, l ++ needle.toList ++ r = haystack.toList

/-! ## Theorems -/

/-- C1, counterexample: the claim fails on the code. For (Ladakh, Mustard) the
crop-level default table has no Mustard entry, so the historical yield is the
global default 2500, not the claimed crop-level default 1200. -/
theorem C1_ladakh_mustard_counterexample :
    (get_historical_prediction "Ladakh" "Mustard").historical_yield = 2500 ∧
    dict_get default_yields "Mustard" = none ∧ (2500 : ℚ) ≠ 1200 :=
  ⟨rfl, rfl, by norm_num⟩

/-- C1, amended: for the input state Ladakh (absent from the historical table)
and crop Mustard (absent from the crop-level default table), the lookup falls
through to the global default yield 2500 with reliability 70. -/
theorem C1_ladakh_mustard_amended :
    (get_historical_prediction "Ladakh" "Mustard").historical_yield = 2500 ∧
    (get_historical_prediction "Ladakh" "Mustard").reliability = 70 :=
  ⟨rfl, rfl⟩

/-- C2: the historical-reference lookup is a total function, and it resolves
in the fallback order: an exact state+crop entry wins; otherwise the
crop-level default; otherwise the global default 2500. -/
theorem C2_lookup_total_fallback_order (state crop_type : String) :
    (∀ y, exact_historical_entry state crop_type = some y →
      (get_historical_prediction state crop_type).historical_yield = y) ∧
    (exact_historical_entry state crop_type = none →
      ∀ d, dict_get default_yields crop_type = some d →
        (get_historical_prediction state crop_type).historical_yield = d) ∧
    (exact_historical_entry state crop_type = none →
      dict_get default_yields crop_type = none →
      (get_historical_prediction state crop_type).historical_yield = 2500) := by
  refine ⟨?_, ?_, ?_⟩ <;>
    simp only [get_historical_prediction, exact_historical_entry, dict_getD] <;>
    intro h <;> simp_all

/-- Witness for C2: each branch of the fallback order at a concrete input. -/
theorem C2_witness :
    (get_historical_prediction "Punjab" "Rice").historical_yield = 4200 ∧
    (get_historical_prediction "Ladakh" "Wheat").historical_yield = 3200 ∧
    (get_historical_prediction "Ladakh" "Turmeric").historical_yield = 2500 :=
  ⟨(C2_lookup_total_fallback_order "Punjab" "Rice").1 4200 rfl,
   (C2_lookup_total_fallback_order "Ladakh" "Wheat").2.1 rfl 3200 rfl,
   (C2_lookup_total_fallback_order "Ladakh" "Turmeric").2.2 rfl rfl⟩

/-- C3: for (Punjab, Wheat) the lookup returns historical yield 4800,
reliability 85, and a source description containing both "Wheat" and
"Punjab". -/
theorem C3_punjab_wheat_scenario :
    (get_historical_prediction "Punjab" "Wheat").historical_yield = 4800 ∧
    (get_historical_prediction "Punjab" "Wheat").reliability = 85 ∧
    contains_substring "Wheat"
      (get_historical_prediction "Punjab" "Wheat").data_source ∧
    contains_substring "Punjab"
      (get_historical_prediction "Punjab" "Wheat").data_source :=
  ⟨rfl, rfl,
   ⟨"Average yield data for ".toList, " in Punjab".toList, by decide⟩,
   ⟨"Average yield data for Wheat in ".toList, [], by decide⟩⟩

/-- C4, counterexample: the claim fails on the code. For (Punjab, Mustard)
there is no exact historical entry for the pair, yet reliability is 85 (not
the claimed 70), because the code tests only membership of the state in the
historical table. -/
theorem C4_reliability_counterexample :
    exact_historical_entry "Punjab" "Mustard" = none ∧
    (get_historical_prediction "Punjab" "Mustard").reliability = 85 ∧
    (85 : ℚ) ≠ 70 :=
  ⟨rfl, rfl, by norm_num⟩

/-- C4, amended: for every (state, crop) pair the reliability is 85 exactly
when the state is a key of the historical table (regardless of the crop), and
70 otherwise. -/
theorem C4_reliability_from_state_membership (state crop_type : String) :
    (get_historical_prediction state crop_type).reliability =
      if dict_mem historical_data state then 85 else 70 :=
  rfl

/-- C5: at every valid input the assembled pipeline produces no
PredictionResult at all: `preprocess_inputs` returns a string-keyed dict with
no numeric conversion, and the subscripts `['yield']` / `['confidence']` that
`display_results` applies are undefined on the bare scalar `predict_yield`
returns — so no yield ≥ 0 and confidence ∈ [0,100] are ever returned. -/
theorem C5_pipeline_produces_no_prediction_result
    (predict : List (List ℚ) → List ℚ) (state : String)
    (rainfall temperature soil_ph : ℚ) (crop_type : String) :
    estimate_pipeline predict state rainfall temperature soil_ph crop_type = none ∧
    ∀ q : ℚ, getItem (.num q) "yield" = none ∧ getItem (.num q) "confidence" = none :=
  ⟨rfl, fun _ => ⟨rfl, rfl⟩⟩

/-- C6: when the artifact file is absent, loading fails, the failure is
surfaced to the caller (the raised error propagates out of the pipeline), and
no partially-populated result is returned. -/
theorem C6_model_unavailable_surfaced
    (file : Option (List (List ℚ) → List ℚ)) (state : String)
    (rainfall temperature soil_ph : ℚ) (crop_type : String)
    (h : file = none) :
    run_prediction file state rainfall temperature soil_ph crop_type =
      Except.error "FileNotFoundError: trained_model.pkl" := by
  subst h; rfl

/-- Witness for C6: the pipeline at a concrete input with the file absent. -/
theorem C6_witness :
    run_prediction none "Punjab" 800 25 6.5 "Wheat" =
      Except.error "FileNotFoundError: trained_model.pkl" :=
  C6_model_unavailable_surfaced none "Punjab" 800 25 6.5 "Wheat" rfl

/-- C7: feature construction never yields the numeric vector the artifact
expects: for every input, `preprocess_inputs` returns a string-keyed dict
(with string-valued state and crop), whose conversion to a numeric row fails,
so `predict_yield` makes no successful predict call on a feature vector. -/
theorem C7_no_numeric_feature_vector (state : String)
    (rainfall temperature soil_ph : ℚ) (crop_type : String) :
    to_numeric_row (preprocess_inputs state rainfall temperature soil_ph crop_type)
      = none ∧
    ∀ predict, UtilsModel.predict_yield predict
      (preprocess_inputs state rainfall temperature soil_ph crop_type) = none :=
  ⟨rfl, fun _ => rfl⟩

/-- C8: the advisory functions (modelled from the spec, since
`utils/recommendations.py` is absent from the repository) are pure, hence
deterministic and order-stable: two calls with identical arguments return
identical ordered lists of advisory records. -/
theorem C8_advisory_deterministic (input : PredictionInput)
    (result : PredictionResult) :
    get_crop_recommendations input result = get_crop_recommendations input result ∧
    get_optimization_suggestions input result
      = get_optimization_suggestions input result :=
  ⟨rfl, rfl⟩

/-- C9: the ratio and percent-difference computations of `display_results`
are guarded against division by zero: when the historical yield is ≤ 0 the
ratio defaults to 1 and the percent difference to 0; the divisions are taken
only in the strictly-positive branch. -/
theorem C9_division_guards (user_yield historical_yield : ℚ) :
    (historical_yield ≤ 0 →
      yield_ratio user_yield historical_yield = 1 ∧
      yield_diff_percent user_yield historical_yield = 0) ∧
    (0 < historical_yield →
      yield_ratio user_yield historical_yield = user_yield / historical_yield ∧
      yield_diff_percent user_yield historical_yield =
        (user_yield / historical_yield - 1) * 100) := by
  constructor
  · intro h
    have h' : ¬ historical_yield > 0 := not_lt.mpr h
    simp [yield_ratio, yield_diff_percent, h']
  · intro h
    simp [yield_ratio, yield_diff_percent, h]

/-- Witness for C9: both branches at concrete inputs. -/
theorem C9_witness :
    (yield_ratio 3000 0 = 1 ∧ yield_diff_percent 3000 0 = 0) ∧
    (yield_ratio 3000 2500 = 3000 / 2500 ∧
      yield_diff_percent 3000 2500 = (3000 / 2500 - 1) * 100) :=
  ⟨(C9_division_guards 3000 0).1 (by norm_num),
   (C9_division_guards 3000 2500).2 (by norm_num)⟩

/-- Flattening a list of plain numbers succeeds and returns those numbers. -/
theorem to_numeric_rows_map_num (xs : List ℚ) :
    to_numeric_rows (xs.map PyVal.num) = some xs := by
  induction xs with
  | nil => rfl
  | cons x xs ih => simp [to_numeric_rows, to_numeric_row, ih]

/-- C10: the two `predict_yield` implementations are equivalent: for every
model and every flat numeric feature vector, `model.predict([features])[0]`
(src/model.py) equals
`model.predict(np.array(input_data).reshape(1, -1))[0]` (src/utils/model.py). -/
theorem C10_predict_yield_equivalent (predict : List (List ℚ) → List ℚ)
    (features : List ℚ) :
    ModelPy.predict_yield predict features =
      UtilsModel.predict_yield predict (PyVal.list (features.map PyVal.num)) := by
  simp [ModelPy.predict_yield, UtilsModel.predict_yield, to_numeric_row,
    to_numeric_rows_map_num]
